import Mathlib

/-!
Shallow embedding of `minecraft_tester.py` (Minecraft Modpack Startup Tester).

The program reads one log file, classifies each line against a fixed table of
error signatures (case-insensitive regular expressions), detects startup
success from a list of success phrases, and aggregates the detected issues
into a report with severity counts plus a rendered console summary.

Strings from the source text are modelled as `List Char`; regular-expression
searches are modelled by executable substring searches faithful to the only
regex features used by the program: literal alternation (`A|B|C`), the
non-newline gap `A.*B`, and the mod-name capture `mod[:\s]+([a-zA-Z0-9_]+)`.
Timestamps (`datetime.now()`) are passed in as explicit `Nat` parameters.
-/

namespace MinecraftTester

/-- Python `\s` on the ASCII range: the whitespace class used by `re`. -/
def isPySpace (c : Char) : Bool :=
  c == ' ' || c == '\t' || c == '\n' || c == '\r' || c == '\x0b' || c == '\x0c'

/-- Characters matched by the regex class `[a-zA-Z0-9_]`. -/
def isWordChar (c : Char) : Bool :=
  ('a' ≤ c && c ≤ 'z') || ('A' ≤ c && c ≤ 'Z') || ('0' ≤ c && c ≤ '9') || c == '_'

/-- ASCII lowering of one line, modelling `re.IGNORECASE` (both the
patterns below and the scanned text are compared in lower case). -/
def lowerChars (l : List Char) : List Char := l.map Char.toLower

/-- Test that `sub` occurs as a contiguous run inside the list
(Python `re.search` with a literal pattern). -/
def containsSub (sub : List Char) : List Char → Bool
  | [] => sub.isEmpty
  | c :: t => sub.isPrefixOf (c :: t) || containsSub sub t

/-- Model of `re.search` for a pattern `a.*b`: an occurrence of `a` followed, with no
intervening newline (`.` does not match `\n`), by an occurrence of `b`. -/
def seqSearch (a b : List Char) : List Char → Bool
  | [] => false
  | c :: t =>
      (a.isPrefixOf (c :: t)
        && containsSub b (((c :: t).drop a.length).takeWhile (fun x => x != '\n')))
      || seqSearch a b t

/-- Python `content.split('\n')`: split into lines, keeping empty pieces. -/
def splitLines : List Char → List (List Char)
  | [] => [[]]
  | c :: t =>
      if c = '\n' then [] :: splitLines t
      else
        match splitLines t with
        | h :: rest => (c :: h) :: rest
        | [] => [[c]]

/-- Python `line.strip()` on the ASCII range. -/
def stripChars (l : List Char) : List Char :=
  ((l.dropWhile isPySpace).reverse.dropWhile isPySpace).reverse

/-- Leftmost match of `mod[:\s]+([a-zA-Z0-9_]+)` (case-insensitive) in the
line, returning the captured identifier with its original casing. -/
def modExtract : List Char → Option (List Char)
  | m :: o :: d :: rest =>
      if m.toLower == 'm' && o.toLower == 'o' && d.toLower == 'd' then
        let seps := rest.takeWhile (fun c => c == ':' || isPySpace c)
        let word := (rest.dropWhile (fun c => c == ':' || isPySpace c)).takeWhile isWordChar
        if !seps.isEmpty && !word.isEmpty then some word
        else modExtract (o :: d :: rest)
      else modExtract (o :: d :: rest)
  | _ => none

/-- Model of `mod_match.group(1) if mod_match else "unknown"` from
`analyze_log_content`. -/
def modNameOf (line : List Char) : String :=
  match modExtract line with
  | some w => String.mk w
  | none => "unknown"

/-- One detected issue.  Python builds issues as dicts; the synthetic issues
appended by `monitor_logs` carry only the keys `type`, `message` and
`severity`, while the signature-matched issues of `analyze_log_content`
additionally carry `mod` and `timestamp`.  The optional fields model the
presence or absence of those dict keys. -/
structure Issue where
  type : String
  message : String
  mod : Option String
  severity : String
  timestamp : Option Nat
deriving Repr, DecidableEq

/-- The dict keys present on an issue record, in the insertion order used by
the source. -/
def Issue.fields (i : Issue) : List String :=
  ["type", "message"]
    ++ (if i.mod.isSome then ["mod"] else [])
    ++ ["severity"]
    ++ (if i.timestamp.isSome then ["timestamp"] else [])

/-- The table `self.error_patterns`, in dict insertion order.  Each matcher receives
the lowered line and is faithful to the corresponding regex (alternation of
literals; `Forge.*error` and `ModLauncher.*error` via `seqSearch`). -/
def error_patterns : List (String × (List Char → Bool)) :=
  [("mod_loading_error", fun l =>
      containsSub ("error loading mod".toList) l
      || containsSub ("failed to load mod".toList) l
      || containsSub ("modloadingexception".toList) l),
   ("dependency_missing", fun l =>
      containsSub ("missing required dependency".toList) l
      || containsSub ("unsatisfied dependency".toList) l),
   ("version_conflict", fun l =>
      containsSub ("version conflict".toList) l
      || containsSub ("incompatible mod version".toList) l
      || containsSub ("requires version".toList) l),
   ("file_not_found", fun l =>
      containsSub ("filenotfoundexception".toList) l
      || containsSub ("could not find file".toList) l
      || containsSub ("missing file".toList) l),
   ("mixin_error", fun l =>
      containsSub ("mixin apply failed".toList) l
      || containsSub ("mixinexception".toList) l
      || containsSub ("mixin conflict".toList) l),
   ("memory_error", fun l =>
      containsSub ("outofmemoryerror".toList) l
      || containsSub ("java heap space".toList) l
      || containsSub ("gc overhead limit".toList) l),
   ("duplicate_mod", fun l =>
      containsSub ("duplicate mod".toList) l
      || containsSub ("found duplicate".toList) l
      || containsSub ("multiple mods with same".toList) l),
   ("config_error", fun l =>
      containsSub ("configuration error".toList) l
      || containsSub ("invalid config".toList) l
      || containsSub ("config parse error".toList) l),
   ("java_error", fun l =>
      containsSub ("unsupportedclassversionerror".toList) l
      || containsSub ("java version".toList) l
      || containsSub ("jvm crash".toList) l),
   ("forge_error", fun l =>
      containsSub ("fml".toList) l
      || seqSearch ("forge".toList) ("error".toList) l
      || seqSearch ("modlauncher".toList) ("error".toList) l)]

/-- The signature kind names, in table order. -/
def errorKinds : List String := error_patterns.map Prod.fst

/-- The kinds classified `critical` on line 95 of the source. -/
def criticalKinds : List String := ["mod_loading_error", "memory_error", "java_error"]

/-- Line 95: `severity = "critical" if error_type in [...] else "warning"`. -/
def severityFor (kind : String) : String :=
  if kind ∈ criticalKinds then "critical" else "warning"

/-- The kinds whose pattern matches the given line. -/
def matchedKinds (line : List Char) : List String :=
  (error_patterns.filter (fun p => p.2 (lowerChars line))).map Prod.fst

/-- The issues `analyze_log_content` appends for one line: one per matching
signature, in table order. -/
def analyzeLine (now : Nat) (line : List Char) : List Issue :=
  (error_patterns.filter (fun p => p.2 (lowerChars line))).map (fun p =>
    { type := p.1
      message := String.mk (stripChars line)
      mod := some (modNameOf line)
      severity := severityFor p.1
      timestamp := some now })

/-- Model of `analyze_log_content`: split into lines and scan each line against every
signature; issues accumulate in discovery order. -/
def analyze_log_content (content : List Char) (now : Nat) : List Issue :=
  (splitLines content).flatMap (analyzeLine now)

/-- The list `self.success_patterns`, each matcher faithful to its regex and receiving
the lowered full text. -/
def success_patterns : List (List Char → Bool) :=
  [fun l => seqSearch ("minecraft main menu".toList) ("displayed".toList) l,
   fun l => seqSearch ("successfully loaded".toList) ("main menu".toList) l,
   fun l => containsSub ("client successfully started".toList) l,
   fun l => containsSub ("reached main menu".toList) l]

/-- Success detection in `monitor_logs`: the full text is scanned against
each success pattern (case-insensitively); any match sets the flag. -/
def successMatched (content : List Char) : Bool :=
  success_patterns.any (fun p => p (lowerChars content))

/-- The state of the log source when `monitor_logs` runs: the file is
missing, the read raises, or the full text is obtained. -/
inductive LogSource where
  | missing
  | readErr (msg : String)
  | content (text : String)

/-- The instance state written by `monitor_logs`: `self.issues` and
`self.startup_successful`. -/
structure MonitorState where
  issues : List Issue
  startup_successful : Bool
deriving Repr, DecidableEq

/-- Model of `monitor_logs`: a missing file or a read failure appends one synthetic
critical issue (with only `type`, `message`, `severity` keys) and skips
analysis; otherwise the content is analyzed and then scanned for success. -/
def monitor_logs (logFile : String) (src : LogSource) (now : Nat) : MonitorState :=
  match src with
  | .missing =>
      { issues := [{ type := "file_not_found"
                     message := "Log file not found: " ++ logFile
                     mod := none, severity := "critical", timestamp := none }]
        startup_successful := false }
  | .readErr msg =>
      { issues := [{ type := "log_read_error"
                     message := "Error reading log file: " ++ msg
                     mod := none, severity := "critical", timestamp := none }]
        startup_successful := false }
  | .content text =>
      { issues := analyze_log_content text.toList now
        startup_successful := successMatched text.toList }

/-- The report dict built by `generate_report` (timestamps as `Nat`). -/
structure Report where
  test_timestamp : Nat
  minecraft_directory : String
  startup_successful : Bool
  total_issues : Nat
  critical_issues : Nat
  warning_issues : Nat
  issues : List Issue
deriving Repr, DecidableEq

/-- Model of `generate_report`: aggregate the monitor state into the report dict. -/
def generate_report (dir : String) (reportNow : Nat) (st : MonitorState) : Report :=
  { test_timestamp := reportNow
    minecraft_directory := dir
    startup_successful := st.startup_successful
    total_issues := st.issues.length
    critical_issues := (st.issues.filter (fun i => i.severity == "critical")).length
    warning_issues := (st.issues.filter (fun i => i.severity == "warning")).length
    issues := st.issues }

/-- Model of `run_test`: `launch_minecraft` always returns `True`, so every run is
`monitor_logs` followed by `generate_report` on a fresh instance state. -/
def run_test (dir logFile : String) (src : LogSource) (now reportNow : Nat) : Report :=
  generate_report dir reportNow (monitor_logs logFile src now)

/-- One warning entry of the console summary:
`f"  • {issue['type'].upper()}: {issue['message'][:100]}..."`. -/
def renderWarning (i : Issue) : String :=
  "  • " ++ String.mk (i.type.toList.map Char.toUpper) ++ ": "
    ++ String.mk (i.message.toList.take 100) ++ "..."

/-- The truncation suffix: `f"  ... and {len(warnings) - 5} more warnings"`. -/
def moreWarningsLine (n : Nat) : String :=
  "  ... and " ++ toString n ++ " more warnings"

/-- Lines 158-164 of the source: the warnings block of the console summary.
Printed only when warnings exist; shows the first 5 entries and, when more
than 5 were collected, one truncation suffix line. -/
def warningsBlock (warnings : List Issue) : List String :=
  if warnings.isEmpty then []
  else
    "\nWARNINGS (may cause issues):" :: ((warnings.take 5).map renderWarning
      ++ (if 5 < warnings.length then [moreWarningsLine (warnings.length - 5)] else []))

/-- A fixture warning issue, used to instantiate the rendering lemmas on
concrete inputs. -/
def sampleWarning : Issue :=
  ⟨"config_error", "Invalid config detected", some ("unknown"), "warning", some 0⟩

/-- Issues with their `timestamp` key forgotten, for comparing two
classification runs made at different times. -/
def eraseTimes (l : List Issue) : List Issue :=
  l.map (fun i => { i with timestamp := none })

/-! ## Helper lemmas -/

theorem severityFor_crit_or_warn (k : String) :
    severityFor k = "critical" ∨ severityFor k = "warning" := by
  unfold severityFor
  split
  · exact Or.inl rfl
  · exact Or.inr rfl

theorem mem_analyzeLine_shape {now : Nat} {line : List Char} {i : Issue}
    (h : i ∈ analyzeLine now line) :
    i.severity = severityFor i.type ∧ i.mod = some (modNameOf line)
      ∧ i.timestamp = some now := by
  unfold analyzeLine at h
  obtain ⟨p, _, rfl⟩ := List.mem_map.mp h
  exact ⟨rfl, rfl, rfl⟩

theorem mem_analyze_shape {content : List Char} {now : Nat} {i : Issue}
    (h : i ∈ analyze_log_content content now) :
    i.severity = severityFor i.type ∧ i.mod.isSome ∧ i.timestamp = some now := by
  unfold analyze_log_content at h
  obtain ⟨line, _, hline⟩ := List.mem_flatMap.mp h
  obtain ⟨h1, h2, h3⟩ := mem_analyzeLine_shape hline
  exact ⟨h1, by simp [h2], h3⟩

theorem count_partition (l : List Issue)
    (h : ∀ i ∈ l, i.severity = "critical" ∨ i.severity = "warning") :
    (l.filter (fun i => i.severity == "critical")).length
      + (l.filter (fun i => i.severity == "warning")).length = l.length := by
  induction l with
  | nil => simp
  | cons a t ih =>
    have ht := ih (fun i hi => h i (List.mem_cons_of_mem a hi))
    rcases h a (List.mem_cons_self a t) with ha | ha <;>
      simp [List.filter_cons, ha] <;> omega

theorem analyzeLine_types (now : Nat) (line : List Char) :
    (analyzeLine now line).map Issue.type = matchedKinds line := by
  unfold analyzeLine matchedKinds
  rw [List.map_map]
  rfl

theorem eraseTimes_analyzeLine (t1 t2 : Nat) (line : List Char) :
    eraseTimes (analyzeLine t1 line) = eraseTimes (analyzeLine t2 line) := by
  unfold eraseTimes analyzeLine
  rw [List.map_map, List.map_map]
  rfl

/-! ## Claim theorems -/

/-- Claim C1: in the produced report, `critical_issues + warning_issues`
equals `total_issues`, which equals the length of the issues list: every
appended issue has severity exactly "critical" or "warning", and
`generate_report` computes all three counts from the same list. -/
theorem C1_report_counts (dir logFile : String) (src : LogSource)
    (now reportNow : Nat) :
    (run_test dir logFile src now reportNow).critical_issues
        + (run_test dir logFile src now reportNow).warning_issues
      = (run_test dir logFile src now reportNow).total_issues
    ∧ (run_test dir logFile src now reportNow).total_issues
      = (run_test dir logFile src now reportNow).issues.length := by
  refine ⟨?_, rfl⟩
  apply count_partition
  intro i hi
  cases src with
  | missing =>
    simp only [monitor_logs, List.mem_singleton] at hi
    rw [hi]
    exact Or.inl rfl
  | readErr msg =>
    simp only [monitor_logs, List.mem_singleton] at hi
    rw [hi]
    exact Or.inl rfl
  | content text =>
    have hshape : i ∈ analyze_log_content text.toList now := hi
    rw [(mem_analyze_shape hshape).1]
    exact severityFor_crit_or_warn i.type

/-- Claim C3: when the log artifact is missing, the report has exactly one
issue, of kind "file_not_found" and severity "critical", the critical count
is 1, and `startup_successful` is false: analysis is skipped entirely. -/
theorem C3_missing_artifact (dir logFile : String) (now reportNow : Nat) :
    (run_test dir logFile .missing now reportNow).total_issues = 1
    ∧ (run_test dir logFile .missing now reportNow).issues.map
        (fun i => (i.type, i.severity)) = [("file_not_found", "critical")]
    ∧ (run_test dir logFile .missing now reportNow).critical_issues = 1
    ∧ (run_test dir logFile .missing now reportNow).startup_successful = false :=
  ⟨rfl, rfl, rfl, rfl⟩

/-- Claim C4: on an existing readable artifact, `startup_successful` is true
exactly when some success pattern matches the lowered full text, and the
issue list is the full line-by-line analysis regardless of success: success
detection runs after error scanning has completed. -/
theorem C4_success_independent (logFile text : String) (now : Nat) :
    ((monitor_logs logFile (.content text) now).startup_successful = true
      ↔ ∃ p ∈ success_patterns, p (lowerChars text.toList) = true)
    ∧ (monitor_logs logFile (.content text) now).issues
      = analyze_log_content text.toList now := by
  refine ⟨?_, rfl⟩
  simp only [monitor_logs, successMatched, List.any_eq_true]

/-- Claim C5: a line whose matched-signature list is exactly two distinct
kinds yields exactly two issues, one per matched kind, in table order:
there is no first-match short-circuit among the signatures. -/
theorem C5_two_matches (line : List Char) (now : Nat) (k1 k2 : String)
    (hne : k1 ≠ k2) (h : matchedKinds line = [k1, k2]) :
    (analyzeLine now line).length = 2
    ∧ (analyzeLine now line).map Issue.type = [k1, k2] := by
  have htypes := analyzeLine_types now line
  have hlen : (analyzeLine now line).length = (matchedKinds line).length := by
    rw [← htypes, List.length_map]
  rw [h] at hlen
  exact ⟨hlen, htypes.trans h⟩

/-- Witness for C5 at a concrete line matching exactly the two distinct
kinds "mod_loading_error" and "file_not_found". -/
theorem C5_two_matches_witness :
    ("mod_loading_error" : String) ≠ "file_not_found"
    ∧ matchedKinds ("Error loading mod foo: FileNotFoundException".toList)
        = ["mod_loading_error", "file_not_found"]
    ∧ (analyzeLine 3 ("Error loading mod foo: FileNotFoundException".toList)).length = 2
    ∧ (analyzeLine 3 ("Error loading mod foo: FileNotFoundException".toList)).map
        Issue.type = ["mod_loading_error", "file_not_found"] := by
  have h := C5_two_matches ("Error loading mod foo: FileNotFoundException".toList) 3
    "mod_loading_error" "file_not_found" (by decide) (by decide)
  exact ⟨by decide, by decide, h.1, h.2⟩

/-- Claim C6: every signature-matched issue's severity equals the static
lookup on its kind, and is "critical" exactly when the kind is one of
`criticalKinds` (mod_loading_error, memory_error, java_error). -/
theorem C6_severity_static (content : List Char) (now : Nat) (i : Issue)
    (h : i ∈ analyze_log_content content now) :
    i.severity = severityFor i.type
    ∧ (i.severity = "critical" ↔ i.type ∈ criticalKinds) := by
  have h1 := (mem_analyze_shape h).1
  refine ⟨h1, ?_⟩
  rw [h1]
  unfold severityFor
  by_cases hk : i.type ∈ criticalKinds
  · simp [hk]
  · rw [if_neg hk]
    exact ⟨fun hcon => absurd hcon (by decide), fun hcon => absurd hcon hk⟩

/-- Witness for C6 at a concrete critical line ("OutOfMemoryError"). -/
theorem C6_severity_static_witness :
    (⟨"memory_error", "OutOfMemoryError", some "unknown", "critical", some 0⟩ : Issue)
      ∈ analyze_log_content ("OutOfMemoryError".toList) 0
    ∧ ("critical" : String) = severityFor ("memory_error")
    ∧ (("critical" : String) = "critical" ↔ ("memory_error" : String) ∈ criticalKinds) := by
  have hm : (⟨"memory_error", "OutOfMemoryError", some "unknown", "critical", some 0⟩ : Issue)
      ∈ analyze_log_content ("OutOfMemoryError".toList) 0 := by decide
  exact ⟨hm, (C6_severity_static ("OutOfMemoryError".toList) 0 _ hm).1,
    (C6_severity_static ("OutOfMemoryError".toList) 0 _ hm).2⟩

/-- Claim C8: classification is deterministic and idempotent: analyzing the
same text at two different times yields issue sequences equal in content
and order in every field except the timestamp. -/
theorem C8_idempotent (text : String) (t1 t2 : Nat) :
    eraseTimes (analyze_log_content text.toList t1)
      = eraseTimes (analyze_log_content text.toList t2) := by
  unfold analyze_log_content
  induction splitLines text.toList with
  | nil => rfl
  | cons l t ih =>
    simp only [List.flatMap_cons, eraseTimes, List.map_append] at ih ⊢
    rw [ih]
    have := eraseTimes_analyzeLine t1 t2 l
    unfold eraseTimes at this
    rw [this]

/-- Claim C9: one line yields at most one issue per signature kind (the
match test is boolean, however often the pattern occurs in the line), so a
line contributes at most 10 issues, one per table entry. -/
theorem C9_per_line_bound (line : List Char) (now : Nat) (k : String) :
    ((analyzeLine now line).map Issue.type).count k ≤ 1
    ∧ (analyzeLine now line).length ≤ 10 := by
  have hsub : List.Sublist (matchedKinds line) errorKinds :=
    (List.filter_sublist error_patterns).map Prod.fst
  have hnd : errorKinds.Nodup := by decide
  have htypes := analyzeLine_types now line
  constructor
  · rw [htypes]
    exact le_trans (hsub.count_le k) (List.nodup_iff_count_le_one.mp hnd k)
  · have hlen : (analyzeLine now line).length = (matchedKinds line).length := by
      rw [← htypes, List.length_map]
    rw [hlen]
    exact le_trans hsub.length_le (by decide)

/-- Claim C10: the kind "file_not_found" does not determine severity or
origin: a log line matching the file_not_found signature yields a warning
issue of that kind, while a missing artifact yields a critical issue of the
same kind. -/
theorem C10_kind_not_severity :
    (analyze_log_content ("java.io.FileNotFoundException: foo".toList) 0).map
        (fun i => (i.type, i.severity)) = [("file_not_found", "warning")]
    ∧ (monitor_logs ("latest.log") .missing 0).issues.map
        (fun i => (i.type, i.severity)) = [("file_not_found", "critical")] :=
  ⟨by decide, by decide⟩

/-- Claim C7: the warnings block of the console summary shows the first 5
warning entries; when more than 5 warnings were collected it appends exactly
one truncation line naming the remaining count, and when 5 or fewer were
collected every warning is shown and no truncation line is printed. -/
theorem C7_warning_truncation (warnings : List Issue) :
    (5 < warnings.length →
      warningsBlock warnings
        = "\nWARNINGS (may cause issues):"
            :: ((warnings.take 5).map renderWarning
              ++ [moreWarningsLine (warnings.length - 5)])
      ∧ ((warnings.take 5).map renderWarning).length = 5)
    ∧ (warnings.length ≤ 5 → warnings ≠ [] →
      warningsBlock warnings
        = "\nWARNINGS (may cause issues):" :: warnings.map renderWarning
      ∧ (warningsBlock warnings).length = 1 + warnings.length) := by
  constructor
  · intro h5
    have hne : warnings.isEmpty = false := by
      cases warnings with
      | nil => simp at h5
      | cons a t => rfl
    constructor
    · unfold warningsBlock
      rw [hne, if_pos h5]
      rfl
    · rw [List.length_map, List.length_take]
      omega
  · intro h5 hnil
    have hne : warnings.isEmpty = false := by
      cases warnings with
      | nil => exact absurd rfl hnil
      | cons a t => rfl
    have hnot : ¬ 5 < warnings.length := by omega
    have hblock : warningsBlock warnings
        = "\nWARNINGS (may cause issues):" :: warnings.map renderWarning := by
      unfold warningsBlock
      rw [hne, if_neg hnot, List.take_of_length_le h5, List.append_nil]
      rfl
    refine ⟨hblock, ?_⟩
    rw [hblock]
    simp [Nat.add_comm]

/-- Witness for C7 at a list of 6 warnings (truncated, one suffix line) and
a list of 1 warning (shown in full, no suffix line). -/
theorem C7_warning_truncation_witness :
    5 < (List.replicate 6 sampleWarning).length
    ∧ warningsBlock (List.replicate 6 sampleWarning)
        = "\nWARNINGS (may cause issues):"
            :: (((List.replicate 6 sampleWarning).take 5).map renderWarning
              ++ [moreWarningsLine ((List.replicate 6 sampleWarning).length - 5)])
    ∧ [sampleWarning].length ≤ 5 ∧ [sampleWarning] ≠ []
    ∧ warningsBlock [sampleWarning]
        = "\nWARNINGS (may cause issues):" :: [sampleWarning].map renderWarning := by
  refine ⟨by decide, ?_, by decide, by decide, ?_⟩
  · exact ((C7_warning_truncation (List.replicate 6 sampleWarning)).1 (by decide)).1
  · exact ((C7_warning_truncation [sampleWarning]).2 (by decide) (by decide)).1

/-- Counterexample to claim C2: the synthetic missing-file issue carries
only the type, message and severity keys, while a signature-matched issue
also carries mod and timestamp keys, so the two shapes differ and issues are
distinguishable by more than the kind string. -/
theorem C2_counterexample :
    (monitor_logs ("latest.log") .missing 0).issues.map Issue.fields
      = [["type", "message", "severity"]]
    ∧ (analyze_log_content ("Error loading mod: foo".toList) 0).map Issue.fields
      = [["type", "message", "mod", "severity", "timestamp"]]
    ∧ (["type", "message", "severity"] : List String)
      ≠ ["type", "message", "mod", "severity", "timestamp"] :=
  ⟨by decide, by decide, by decide⟩

/-- Claim C2 as amended: every recoverable error condition (missing
artifact, read error) appears in the report as a critical issue, but its
record shape is smaller than a signature-matched issue's: synthetic issues
carry only the type, message and severity keys, with no associated mod and
no timestamp, while every signature-matched issue carries all five keys. -/
theorem C2_amended_shape (logFile msg text : String) (now : Nat) (i j : Issue)
    (hi : i ∈ (monitor_logs logFile .missing now).issues
        ∨ i ∈ (monitor_logs logFile (.readErr msg) now).issues)
    (hj : j ∈ analyze_log_content text.toList now) :
    i.severity = "critical" ∧ i.fields = ["type", "message", "severity"]
    ∧ j.fields = ["type", "message", "mod", "severity", "timestamp"] := by
  obtain ⟨_, hm, ht⟩ := mem_analyze_shape hj
  have hjf : j.fields = ["type", "message", "mod", "severity", "timestamp"] := by
    unfold Issue.fields
    rw [hm, ht]
    rfl
  rcases hi with hi | hi <;>
    · simp only [monitor_logs, List.mem_singleton] at hi
      rw [hi]
      exact ⟨rfl, rfl, hjf⟩

/-- Witness for C2 as amended, at the concrete missing-file issue and a
concrete mod-loading issue. -/
theorem C2_amended_shape_witness :
    (⟨"file_not_found", "Log file not found: latest.log", none, "critical", none⟩ : Issue)
      ∈ (monitor_logs ("latest.log") .missing 0).issues
    ∧ (⟨"mod_loading_error", "Error loading mod: foo", some ("foo"), "critical", some 0⟩ : Issue)
      ∈ analyze_log_content ("Error loading mod: foo".toList) 0
    ∧ ("critical" : String) = "critical"
    ∧ Issue.fields ⟨"file_not_found", "Log file not found: latest.log", none, "critical", none⟩
      = ["type", "message", "severity"]
    ∧ Issue.fields ⟨"mod_loading_error", "Error loading mod: foo", some ("foo"), "critical", some 0⟩
      = ["type", "message", "mod", "severity", "timestamp"] := by
  have h1 : (⟨"file_not_found", "Log file not found: latest.log", none, "critical", none⟩ : Issue)
      ∈ (monitor_logs ("latest.log") .missing 0).issues := by decide
  have h2 : (⟨"mod_loading_error", "Error loading mod: foo", some ("foo"), "critical", some 0⟩ : Issue)
      ∈ analyze_log_content ("Error loading mod: foo".toList) 0 := by decide
  have h := C2_amended_shape ("latest.log") ("boom") ("Error loading mod: foo") 0 _ _
    (Or.inl h1) h2
  exact ⟨h1, h2, h.1, h.2.1, h.2.2⟩

end MinecraftTester




